import Mathlib

/-!
Shallow embedding of `src/OpenGL/First OpenGL Program/Source/WindowManager.cpp`.

The program is a thin wrapper over the GLFW windowing library and the GLEW
loader.  Every external library call is nondeterministic from the program's
point of view, so the embedding takes a `GLFWEnv` record fixing the results
the libraries would return during the call, and every operation additionally
emits a trace of `Effect`s recording the library calls it performed, in
order.  A small interpreter (`stepEffect` / `runEffects`) gives the GLFW
library-state semantics of a trace (initialized flag, live window, current
context), following the documented behaviour of `glfwInit`,
`glfwCreateWindow`, `glfwMakeContextCurrent` and `glfwTerminate`.
-/

/-- GLFW constant `GLFW_SAMPLES` (0x0002100D). -/
def GLFW_SAMPLES : Int := 0x0002100D

/-- GLFW constant `GLFW_CONTEXT_VERSION_MAJOR` (0x00022002). -/
def GLFW_CONTEXT_VERSION_MAJOR : Int := 0x00022002

/-- GLFW constant `GLFW_CONTEXT_VERSION_MINOR` (0x00022003). -/
def GLFW_CONTEXT_VERSION_MINOR : Int := 0x00022003

/-- GLFW constant `GLFW_OPENGL_PROFILE` (0x00022008). -/
def GLFW_OPENGL_PROFILE : Int := 0x00022008

/-- GLFW constant `GLFW_OPENGL_CORE_PROFILE` (0x00032001). -/
def GLFW_OPENGL_CORE_PROFILE : Int := 0x00032001

/-- GLFW constant `GLFW_STICKY_KEYS` (0x00033002). -/
def GLFW_STICKY_KEYS : Int := 0x00033002

/-- GLFW constant `GLFW_KEY_ESCAPE` (256). -/
def GLFW_KEY_ESCAPE : Int := 256

/-- OpenGL constant `GL_TRUE` (1). -/
def GL_TRUE : Int := 1

/-- GLEW constant `GLEW_OK` (0). -/
def GLEW_OK : Nat := 0

/-- Results the external libraries return during one call into the
`WindowManager`.  `glfwInitOk` is whether `glfwInit()` returns nonzero;
`createWindowResult` is the pointer returned by `glfwCreateWindow`
(`none` models `nullptr`, `some h` a non-null handle); `glewInitResult`
is the `GLenum` returned by `glewInit()`; `escapePressed` is whether
`glfwGetKey(.., GLFW_KEY_ESCAPE)` returns `GLFW_PRESS`; `windowShouldClose`
is whether `glfwWindowShouldClose` returns nonzero. -/
structure GLFWEnv where
  glfwInitOk : Bool
  createWindowResult : Option Nat
  glewInitResult : Nat
  escapePressed : Bool
  windowShouldClose : Bool
  deriving DecidableEq

/-- One observable library call performed by the program, with the data it
passed and the result it got back where that matters. -/
inductive Effect where
  | glfwInitCall (ok : Bool)
  | windowHint (target value : Int)
  | createWindow (width height : Int) (title : String)
      (fullscreenMonitor : Bool) (result : Option Nat)
  | stderrMsg (msg : String)
  | makeContextCurrent (window : Option Nat)
  | setInputMode (window : Option Nat) (mode value : Int)
  | glewExperimentalSet (value : Bool)
  | glewInitCall (result : Nat)
  | getKey (window : Option Nat) (key : Int) (pressed : Bool)
  | windowShouldCloseCall (window : Option Nat) (result : Bool)
  | pollEvents
  | swapBuffersCall (window : Option Nat)
  | terminate
  deriving DecidableEq

/-- State of the `WindowManager` class: its only field is the opaque
`Window` handle (a `void*` in the source; `none` models `nullptr`). -/
structure WindowManager where
  Window : Option Nat
  deriving DecidableEq

/-- Embedding of `WindowManager::Destroy()`: the body is a single
`glfwTerminate()` call; the `Window` field is not touched. -/
def WindowManager.Destroy (wm : WindowManager) : WindowManager × List Effect :=
  (wm, [Effect.terminate])

/-- Embedding of `WindowManager::Initialize(width, height, strTitle,
bFullScreen)`.  Returns the status code, the updated object state, and the
trace of library calls, mirroring the source line by line:
`glfwInit`, the four `glfwWindowHint` calls, `glfwCreateWindow` (with the
primary monitor iff `bFullScreen`), the null check calling `Destroy()` on
failure, `glfwMakeContextCurrent`, `glfwSetInputMode`,
`glewExperimental = GL_TRUE`, `glewInit`, and the three `fprintf(stderr,..)`
failure messages with their `return -1` paths. -/
def WindowManager.Initialize (env : GLFWEnv) (wm : WindowManager)
    (width height : Int) (strTitle : String) (bFullScreen : Bool) :
    Int × WindowManager × List Effect :=
  if !env.glfwInitOk then
    (-1, wm, [Effect.glfwInitCall false,
              Effect.stderrMsg "Failed to initialize GLFW\n"])
  else
    let hintTrace : List Effect :=
      [Effect.glfwInitCall true,
       Effect.windowHint GLFW_SAMPLES 4,
       Effect.windowHint GLFW_CONTEXT_VERSION_MAJOR 4,
       Effect.windowHint GLFW_CONTEXT_VERSION_MINOR 4,
       Effect.windowHint GLFW_OPENGL_PROFILE GLFW_OPENGL_CORE_PROFILE]
    let wm2 : WindowManager := { wm with Window := env.createWindowResult }
    let createTrace : List Effect := hintTrace ++
      [Effect.createWindow width height strTitle bFullScreen env.createWindowResult]
    match env.createWindowResult with
    | none =>
        let destroyed := wm2.Destroy
        (-1, destroyed.1, createTrace ++
          [Effect.stderrMsg "Failed to create a GLFW window, you might need to download the latest drivers or change the OpenGL version to 3\n"]
          ++ destroyed.2)
    | some hw =>
        let preGlew : List Effect := createTrace ++
          [Effect.makeContextCurrent (some hw),
           Effect.setInputMode (some hw) GLFW_STICKY_KEYS GL_TRUE,
           Effect.glewExperimentalSet true,
           Effect.glewInitCall env.glewInitResult]
        if env.glewInitResult ≠ GLEW_OK then
          (-1, wm2, preGlew ++ [Effect.stderrMsg "Failed to initialize glew\n"])
        else
          (0, wm2, preGlew)

/-- Embedding of `WindowManager::SwapBuffers()`: one
`glfwSwapBuffers((GLFWwindow*)Window)` call; state unchanged. -/
def WindowManager.SwapBuffers (wm : WindowManager) : WindowManager × List Effect :=
  (wm, [Effect.swapBuffersCall wm.Window])

/-- Embedding of `WindowManager::ProcessInput(continueGame)`.  The source
first evaluates `glfwGetKey(.., GLFW_KEY_ESCAPE) == GLFW_PRESS ||
glfwWindowShouldClose(..) != 0` (short-circuit: the close check only runs
when the key check is false) and returns `false` if it holds; only
otherwise does it call `glfwPollEvents()` and return `continueGame`. -/
def WindowManager.ProcessInput (env : GLFWEnv) (wm : WindowManager)
    (continueGame : Bool) : Bool × WindowManager × List Effect :=
  let checkTrace : List Effect :=
    if env.escapePressed then
      [Effect.getKey wm.Window GLFW_KEY_ESCAPE true]
    else
      [Effect.getKey wm.Window GLFW_KEY_ESCAPE false,
       Effect.windowShouldCloseCall wm.Window env.windowShouldClose]
  if env.escapePressed || env.windowShouldClose then
    (false, wm, checkTrace)
  else
    (continueGame, wm, checkTrace ++ [Effect.pollEvents])

/-- GLFW library state: whether the library is initialized, which window
handle (if any) is alive, and which context is current.  A fresh process
starts at `glfwFresh`. -/
structure GLFWLibState where
  initialized : Bool
  liveWindow : Option Nat
  currentContext : Option Nat
  deriving DecidableEq

/-- The library state of a fresh process: nothing initialized, no window,
no current context. -/
def glfwFresh : GLFWLibState :=
  { initialized := false, liveWindow := none, currentContext := none }

/-- Documented GLFW semantics of one library call: `glfwInit` success marks
the library initialized; a successful `glfwCreateWindow` makes its handle
live; `glfwMakeContextCurrent` sets the current context; `glfwTerminate`
destroys all remaining windows and contexts and de-initializes the library.
All other calls leave the library state unchanged. -/
def stepEffect (s : GLFWLibState) : Effect → GLFWLibState
  | Effect.glfwInitCall ok => if ok then { s with initialized := true } else s
  | Effect.createWindow _ _ _ _ res =>
      match res with
      | some h => { s with liveWindow := some h }
      | none => s
  | Effect.makeContextCurrent w => { s with currentContext := w }
  | Effect.terminate => glfwFresh
  | _ => s

/-- Interpretation of a whole trace, first effect applied first. -/
def runEffects (s : GLFWLibState) (es : List Effect) : GLFWLibState :=
  es.foldl stepEffect s

/-- Modelled from the spec: `GLApplication` is defined in `Main.cpp`, which
is not among the sources; the spec says only that the program's exit code is
whatever `main` returns from the embedded application loop
(`GLApplication::GLMain`).  We model the application as carrying the integer
its loop will return. -/
structure GLApplication where
  glMainResult : Int
  deriving DecidableEq

/-- Modelled from the spec: `GLApplication::GLMain` "handles the flow of our
application and immediately starts our game loop"; its body is not among the
sources, so it is abstracted as the result value the loop produces. -/
def GLApplication.GLMain (application : GLApplication) : Int :=
  application.glMainResult

/-- Embedding of the program entry point `int main()`: it takes no
command-line arguments (modelled by having no argument-vector input; the
`GLApplication` parameter is the behaviour of the not-included `Main.cpp`),
constructs a local `GLApplication`, and returns `application.GLMain()`.
(Lean reserves the bare name `main`, so the definition lives in the
`Program` namespace.) -/
def Program.main (application : GLApplication) : Int :=
  application.GLMain

/-- The operations other than `Initialize` that can be invoked on a
`WindowManager`, for reasoning about sequences of calls. -/
inductive Op where
  | swapBuffers
  | processInput (continueGame : Bool)
  | destroy
  deriving DecidableEq

/-- Object state after one operation (the returned values and traces are
projected away; only the `WindowManager` state is tracked). -/
def applyOp (env : GLFWEnv) (wm : WindowManager) : Op → WindowManager
  | Op.swapBuffers => wm.SwapBuffers.1
  | Op.processInput c => (WindowManager.ProcessInput env wm c).2.1
  | Op.destroy => wm.Destroy.1

/-- Object state after a sequence of operations, first operation first. -/
def runOps (env : GLFWEnv) (wm : WindowManager) : List Op → WindowManager
  | [] => wm
  | op :: rest => runOps env (applyOp env wm op) rest

/-- Does a trace contain a write to standard error? -/
def hasStderrMsg : List Effect → Bool
  | [] => false
  | Effect.stderrMsg _ :: _ => true
  | _ :: rest => hasStderrMsg rest

/-- Sample environment where every library call succeeds. -/
def envOk : GLFWEnv :=
  { glfwInitOk := true, createWindowResult := some 1, glewInitResult := 0,
    escapePressed := false, windowShouldClose := false }

/-- Sample environment where `glfwInit` fails. -/
def envNoGLFW : GLFWEnv :=
  { glfwInitOk := false, createWindowResult := some 1, glewInitResult := 0,
    escapePressed := false, windowShouldClose := false }

/-- Sample environment where `glfwCreateWindow` returns `nullptr`. -/
def envNoWindow : GLFWEnv :=
  { glfwInitOk := true, createWindowResult := none, glewInitResult := 0,
    escapePressed := false, windowShouldClose := false }

/-- Sample environment where `glewInit` fails. -/
def envGlewFail : GLFWEnv :=
  { glfwInitOk := true, createWindowResult := some 1, glewInitResult := 1,
    escapePressed := false, windowShouldClose := false }

/-- Sample environment where the user is pressing Escape. -/
def envEscape : GLFWEnv :=
  { glfwInitOk := true, createWindowResult := some 1, glewInitResult := 0,
    escapePressed := true, windowShouldClose := false }

/-- Sample manager state with a null window handle. -/
def wm0 : WindowManager := { Window := none }

/-- Helper: no operation other than `Initialize` changes the object state at
all (each of `SwapBuffers`, `ProcessInput`, `Destroy` returns its receiver
unchanged). -/
theorem applyOp_eq_self (env : GLFWEnv) (wm : WindowManager) (op : Op) :
    applyOp env wm op = wm := by
  cases op with
  | swapBuffers => rfl
  | destroy => rfl
  | processInput c =>
      simp only [applyOp, WindowManager.ProcessInput]
      split <;> rfl

/-- Helper: a sequence of non-`Initialize` operations leaves the object
state unchanged. -/
theorem runOps_eq_self (env : GLFWEnv) (wm : WindowManager) (ops : List Op) :
    runOps env wm ops = wm := by
  induction ops generalizing wm with
  | nil => rfl
  | cons op rest ih => simp [runOps, applyOp_eq_self, ih]

/-- Claim C1: `WindowManager::Initialize` fails, returning a negative status
code, if the underlying windowing library fails to initialize
(`glfwInit` returns zero) or the window cannot be created
(`glfwCreateWindow` returns null). -/
theorem initialize_fails_on_glfw_or_window_failure (env : GLFWEnv)
    (wm : WindowManager) (width height : Int) (strTitle : String)
    (bFullScreen : Bool)
    (hfail : env.glfwInitOk = false ∨ env.createWindowResult = none) :
    (WindowManager.Initialize env wm width height strTitle bFullScreen).1 < 0 := by
  rcases hfail with h | h
  · simp [WindowManager.Initialize, h]
  · cases hg : env.glfwInitOk <;>
      simp [WindowManager.Initialize, h, hg, WindowManager.Destroy]

/-- Witness for C1: with `glfwInit` failing, `Initialize` returns a negative
code on a concrete call. -/
theorem initialize_fails_on_glfw_or_window_failure_witness :
    (WindowManager.Initialize envNoGLFW wm0 1024 768 "Tutorial" false).1 < 0 :=
  initialize_fails_on_glfw_or_window_failure envNoGLFW wm0 1024 768 "Tutorial"
    false (Or.inl rfl)

/-- Claim C3: whenever the windowing library initializes, the window is
created, and the OpenGL function loader initializes, `Initialize` returns a
non-negative status code, namely exactly 0. -/
theorem initialize_success_returns_zero (env : GLFWEnv) (wm : WindowManager)
    (width height : Int) (strTitle : String) (bFullScreen : Bool) (hw : Nat)
    (h1 : env.glfwInitOk = true) (h2 : env.createWindowResult = some hw)
    (h3 : env.glewInitResult = GLEW_OK) :
    0 ≤ (WindowManager.Initialize env wm width height strTitle bFullScreen).1 ∧
    (WindowManager.Initialize env wm width height strTitle bFullScreen).1 = 0 := by
  simp [WindowManager.Initialize, h1, h2, h3]

/-- Witness for C3: a concrete fully successful call returns 0. -/
theorem initialize_success_returns_zero_witness :
    0 ≤ (WindowManager.Initialize envOk wm0 1024 768 "Tutorial" false).1 ∧
    (WindowManager.Initialize envOk wm0 1024 768 "Tutorial" false).1 = 0 :=
  initialize_success_returns_zero envOk wm0 1024 768 "Tutorial" false 1
    rfl rfl rfl

/-- Claim C4: every failure path of `Initialize` both writes a diagnostic to
standard error and returns a negative code, and no path prints a diagnostic
while returning success: the return value is negative exactly when the trace
contains a stderr write, and the only return values are -1 and 0. -/
theorem initialize_failure_reporting (env : GLFWEnv) (wm : WindowManager)
    (width height : Int) (strTitle : String) (bFullScreen : Bool) :
    ((WindowManager.Initialize env wm width height strTitle bFullScreen).1 < 0 ↔
      hasStderrMsg (WindowManager.Initialize env wm width height strTitle bFullScreen).2.2 = true) ∧
    ((WindowManager.Initialize env wm width height strTitle bFullScreen).1 = -1 ∨
     (WindowManager.Initialize env wm width height strTitle bFullScreen).1 = 0) := by
  cases hg : env.glfwInitOk with
  | false => simp [WindowManager.Initialize, hg, hasStderrMsg]
  | true =>
      cases hc : env.createWindowResult with
      | none =>
          simp [WindowManager.Initialize, hg, hc, hasStderrMsg,
            WindowManager.Destroy]
      | some hw =>
          by_cases hgl : env.glewInitResult = GLEW_OK <;>
            simp [WindowManager.Initialize, hg, hc, hgl, hasStderrMsg]

/-- Claim C5: on every successful call, the trace of `Initialize` is exactly
the fixed sequence below: the four hint calls (multisampling 4, context
version 4.4, core profile) come right after `glfwInit` and before the window
is created, and their values do not depend on the arguments. -/
theorem initialize_fixed_hints_on_success (env : GLFWEnv) (wm : WindowManager)
    (width height : Int) (strTitle : String) (bFullScreen : Bool) (hw : Nat)
    (h1 : env.glfwInitOk = true) (h2 : env.createWindowResult = some hw)
    (h3 : env.glewInitResult = GLEW_OK) :
    (WindowManager.Initialize env wm width height strTitle bFullScreen).2.2 =
      [Effect.glfwInitCall true,
       Effect.windowHint GLFW_SAMPLES 4,
       Effect.windowHint GLFW_CONTEXT_VERSION_MAJOR 4,
       Effect.windowHint GLFW_CONTEXT_VERSION_MINOR 4,
       Effect.windowHint GLFW_OPENGL_PROFILE GLFW_OPENGL_CORE_PROFILE,
       Effect.createWindow width height strTitle bFullScreen (some hw),
       Effect.makeContextCurrent (some hw),
       Effect.setInputMode (some hw) GLFW_STICKY_KEYS GL_TRUE,
       Effect.glewExperimentalSet true,
       Effect.glewInitCall GLEW_OK] := by
  simp [WindowManager.Initialize, h1, h2, h3]

/-- Witness for C5: the successful trace of a concrete call. -/
theorem initialize_fixed_hints_on_success_witness :
    (WindowManager.Initialize envOk wm0 1024 768 "Tutorial" false).2.2 =
      [Effect.glfwInitCall true,
       Effect.windowHint GLFW_SAMPLES 4,
       Effect.windowHint GLFW_CONTEXT_VERSION_MAJOR 4,
       Effect.windowHint GLFW_CONTEXT_VERSION_MINOR 4,
       Effect.windowHint GLFW_OPENGL_PROFILE GLFW_OPENGL_CORE_PROFILE,
       Effect.createWindow 1024 768 "Tutorial" false (some 1),
       Effect.makeContextCurrent (some 1),
       Effect.setInputMode (some 1) GLFW_STICKY_KEYS GL_TRUE,
       Effect.glewExperimentalSet true,
       Effect.glewInitCall GLEW_OK] :=
  initialize_fixed_hints_on_success envOk wm0 1024 768 "Tutorial" false 1
    rfl rfl rfl

/-- Counterexample to claim C2 as stated: when the Escape key is pressed,
`ProcessInput` returns `false` but does not poll events, because the source
returns before reaching `glfwPollEvents()`; so it is not the case that every
call polls OS/window events. -/
theorem processinput_polls_counterexample :
    (WindowManager.ProcessInput envEscape wm0 true).1 = false ∧
    Effect.pollEvents ∉ (WindowManager.ProcessInput envEscape wm0 true).2.2 := by
  decide

/-- Claim C2 (amended): `ProcessInput` checks for the exit key (Escape) or a
window-close request and returns `false` if either occurred, otherwise it
returns the passed-in flag unchanged; it polls OS/window events exactly on
the calls where no exit was requested (on an exit it returns before
polling). -/
theorem processinput_exit_semantics (env : GLFWEnv) (wm : WindowManager)
    (continueGame : Bool) :
    (WindowManager.ProcessInput env wm continueGame).1 =
      (if env.escapePressed || env.windowShouldClose then false
       else continueGame) ∧
    (Effect.pollEvents ∈ (WindowManager.ProcessInput env wm continueGame).2.2 ↔
      env.escapePressed = false ∧ env.windowShouldClose = false) := by
  cases he : env.escapePressed <;> cases hc : env.windowShouldClose <;>
    simp [WindowManager.ProcessInput, he, hc]

/-- Claim C6: `Destroy` performs `glfwTerminate`, which releases the window
and its rendering context and de-initializes the library: interpreting the
trace of `Destroy` from any library state (in particular the one produced by
`Initialize`) yields the fresh, fully released state. -/
theorem destroy_releases_library_state (wm : WindowManager)
    (s : GLFWLibState) :
    runEffects s wm.Destroy.2 = glfwFresh ∧
    (runEffects s wm.Destroy.2).initialized = false ∧
    (runEffects s wm.Destroy.2).liveWindow = none ∧
    (runEffects s wm.Destroy.2).currentContext = none :=
  ⟨rfl, rfl, rfl, rfl⟩

/-- Claim C7: the entry point takes no command-line arguments (the model has
no argument-vector input) and the program's exit code is exactly the value
returned by `GLApplication::GLMain`, with no transformation. -/
theorem main_exit_code_is_glmain (application : GLApplication) :
    Program.main application = application.GLMain :=
  rfl

/-- Claim C8: after every successful `Initialize`, the stored `Window`
handle is non-null, and running any sequence of operations that does not
include `Destroy` (i.e. `SwapBuffers` and `ProcessInput` calls) leaves it
valid (non-null). -/
theorem window_handle_valid_between_initialize_and_destroy (env : GLFWEnv)
    (wm : WindowManager) (width height : Int) (strTitle : String)
    (bFullScreen : Bool) (ops : List Op)
    (hinit : (WindowManager.Initialize env wm width height strTitle bFullScreen).1 = 0)
    (_hops : Op.destroy ∉ ops) :
    (WindowManager.Initialize env wm width height strTitle bFullScreen).2.1.Window ≠ none ∧
    (runOps env (WindowManager.Initialize env wm width height strTitle bFullScreen).2.1 ops).Window ≠ none := by
  rw [runOps_eq_self, and_self]
  cases hg : env.glfwInitOk with
  | false => simp [WindowManager.Initialize, hg] at hinit
  | true =>
      cases hc : env.createWindowResult with
      | none =>
          simp [WindowManager.Initialize, hg, hc, WindowManager.Destroy] at hinit
      | some hw =>
          by_cases hgl : env.glewInitResult = GLEW_OK
          · simp [WindowManager.Initialize, hg, hc, hgl]
          · simp [WindowManager.Initialize, hg, hc, hgl] at hinit

/-- Witness for C8: after a concrete successful `Initialize`, a concrete
sequence of `SwapBuffers` and `ProcessInput` calls leaves the handle
non-null. -/
theorem window_handle_valid_between_initialize_and_destroy_witness :
    (WindowManager.Initialize envOk wm0 1024 768 "Tutorial" false).2.1.Window ≠ none ∧
    (runOps envOk (WindowManager.Initialize envOk wm0 1024 768 "Tutorial" false).2.1
      [Op.swapBuffers, Op.processInput true, Op.swapBuffers]).Window ≠ none :=
  window_handle_valid_between_initialize_and_destroy envOk wm0 1024 768
    "Tutorial" false [Op.swapBuffers, Op.processInput true, Op.swapBuffers]
    rfl (by decide)

/-- Claim C9: cleanup on `Initialize` failure is asymmetric.  When window
creation fails, `Initialize` calls `Destroy()` (so `glfwTerminate` appears
in the trace) before returning -1; when `glewInit` fails, it returns -1
without any `glfwTerminate`, and interpreting the trace from a fresh library
state shows the library still initialized and the window still alive. -/
theorem initialize_cleanup_asymmetric (env : GLFWEnv) (wm : WindowManager)
    (width height : Int) (strTitle : String) (bFullScreen : Bool) (hw : Nat) :
    (env.glfwInitOk = true → env.createWindowResult = none →
      (WindowManager.Initialize env wm width height strTitle bFullScreen).1 = -1 ∧
      Effect.terminate ∈ (WindowManager.Initialize env wm width height strTitle bFullScreen).2.2) ∧
    (env.glfwInitOk = true → env.createWindowResult = some hw →
      env.glewInitResult ≠ GLEW_OK →
      (WindowManager.Initialize env wm width height strTitle bFullScreen).1 = -1 ∧
      Effect.terminate ∉ (WindowManager.Initialize env wm width height strTitle bFullScreen).2.2 ∧
      (runEffects glfwFresh (WindowManager.Initialize env wm width height strTitle bFullScreen).2.2).initialized = true ∧
      (runEffects glfwFresh (WindowManager.Initialize env wm width height strTitle bFullScreen).2.2).liveWindow = some hw) := by
  constructor
  · intro h1 h2
    simp [WindowManager.Initialize, h1, h2, WindowManager.Destroy]
  · intro h1 h2 h3
    simp [WindowManager.Initialize, h1, h2, h3, runEffects, stepEffect]

/-- Witness for C9: both failure shapes at concrete inputs, with the
asymmetric presence of `glfwTerminate` in the traces. -/
theorem initialize_cleanup_asymmetric_witness :
    ((WindowManager.Initialize envNoWindow wm0 1024 768 "Tutorial" false).1 = -1 ∧
     Effect.terminate ∈ (WindowManager.Initialize envNoWindow wm0 1024 768 "Tutorial" false).2.2) ∧
    ((WindowManager.Initialize envGlewFail wm0 1024 768 "Tutorial" false).1 = -1 ∧
     Effect.terminate ∉ (WindowManager.Initialize envGlewFail wm0 1024 768 "Tutorial" false).2.2 ∧
     (runEffects glfwFresh (WindowManager.Initialize envGlewFail wm0 1024 768 "Tutorial" false).2.2).initialized = true ∧
     (runEffects glfwFresh (WindowManager.Initialize envGlewFail wm0 1024 768 "Tutorial" false).2.2).liveWindow = some 1) :=
  ⟨(initialize_cleanup_asymmetric envNoWindow wm0 1024 768 "Tutorial" false 1).1
      rfl rfl,
   (initialize_cleanup_asymmetric envGlewFail wm0 1024 768 "Tutorial" false 1).2
      rfl rfl (by decide)⟩

/-- Claim C10: `SwapBuffers`, `ProcessInput` and `Destroy` never modify the
stored `Window` field: each leaves it equal to its previous value, and so
does any sequence of those three operations. -/
theorem window_field_unmodified_by_ops (env : GLFWEnv) (wm : WindowManager)
    (continueGame : Bool) (ops : List Op) :
    wm.SwapBuffers.1.Window = wm.Window ∧
    (WindowManager.ProcessInput env wm continueGame).2.1.Window = wm.Window ∧
    wm.Destroy.1.Window = wm.Window ∧
    (runOps env wm ops).Window = wm.Window := by
  refine ⟨rfl, ?_, rfl, by rw [runOps_eq_self]⟩
  have h := applyOp_eq_self env wm (Op.processInput continueGame)
  simpa [applyOp] using congrArg WindowManager.Window h
